import Mathlib

/-!
Verification of the time-loop puzzle game core: a shallow embedding of the
physics, replay, entity and scheduler code, with theorems settling the
frozen claims about the specification.

Numbers are modelled as rationals: every constant in the source is dyadic
and every operation applied to positions and velocities is addition,
subtraction, comparison and halving, all of which the rationals model
exactly (the parametric segment intersection used by lasers divides, which
the rationals also model, up to floating-point rounding that no claim
depends on).

Sources embedded:
  utils.js    - CONFIG constants, aabbOverlap, pointInRect, segment tests
  physics.js  - applyInput, applyPhysics, resolveCollisions, clampToBounds
  replay.js   - Recording operations (ReplaySystem)
  entities.js - entity shapes, updateSwitch, updateDoor, updateLaser
  levels.js   - createEntities (level descriptors to world entities)
  game.js     - the per-tick scheduler (the tick-indexed, ReplaySystem
                delegating variant, which the repository documentation
                designates as canonical)
-/

namespace TimeLoop

/-- CONFIG.TICK_RATE from utils.js. -/
def TICK_RATE : ℕ := 60

/-- CONFIG.LOOP_TICKS from utils.js (20 seconds at 60 ticks per second). -/
def LOOP_TICKS : ℕ := 20 * 60

/-- CONFIG.CANVAS_WIDTH from utils.js. -/
def CANVAS_WIDTH : ℚ := 800

/-- CONFIG.CANVAS_HEIGHT from utils.js. -/
def CANVAS_HEIGHT : ℚ := 600

/-- CONFIG.GRAVITY from utils.js (0.5). -/
def GRAVITY : ℚ := 1/2

/-- CONFIG.PLAYER_SPEED from utils.js. -/
def PLAYER_SPEED : ℚ := 5

/-- CONFIG.PLAYER_JUMP from utils.js. -/
def PLAYER_JUMP : ℚ := -12

/-- CONFIG.PLAYER_WIDTH from utils.js. -/
def PLAYER_WIDTH : ℚ := 32

/-- CONFIG.PLAYER_HEIGHT from utils.js. -/
def PLAYER_HEIGHT : ℚ := 32

/-- CONFIG.SWITCH_SIZE from utils.js. -/
def SWITCH_SIZE : ℚ := 40

/-- CONFIG.DOOR_WIDTH from utils.js. -/
def DOOR_WIDTH : ℚ := 16

/-- CONFIG.DOOR_HEIGHT from utils.js. -/
def DOOR_HEIGHT : ℚ := 64

/-- An axis-aligned rectangle: the common shape every collidable object in
the source exposes through its x, y, width, height fields. -/
structure Rect where
  x : ℚ
  y : ℚ
  width : ℚ
  height : ℚ
deriving DecidableEq

/-- aabbOverlap from utils.js: strict inequalities on both axes, so
rectangles that merely touch edge-to-edge do not overlap. -/
def aabbOverlap (a b : Rect) : Bool :=
  decide (a.x < b.x + b.width) && decide (a.x + a.width > b.x) &&
  decide (a.y < b.y + b.height) && decide (a.y + a.height > b.y)

/-- pointInRect from utils.js: inclusive on all four edges. -/
def pointInRect (px py : ℚ) (rect : Rect) : Bool :=
  decide (px ≥ rect.x) && decide (px ≤ rect.x + rect.width) &&
  decide (py ≥ rect.y) && decide (py ≤ rect.y + rect.height)

/-- lineIntersectsLine from utils.js: parametric segment-segment
intersection; parallel segments (zero denominator) report false. -/
def lineIntersectsLine (x1 y1 x2 y2 x3 y3 x4 y4 : ℚ) : Bool :=
  let denom := (y4 - y3) * (x2 - x1) - (x4 - x3) * (y2 - y1)
  if denom = 0 then false
  else
    let ua := ((x4 - x3) * (y1 - y3) - (y4 - y3) * (x1 - x3)) / denom
    let ub := ((x2 - x1) * (y1 - y3) - (y2 - y1) * (x1 - x3)) / denom
    decide (ua ≥ 0) && decide (ua ≤ 1) && decide (ub ≥ 0) && decide (ub ≤ 1)

/-- lineIntersectsRect from utils.js: an endpoint inside the rectangle, or
the segment crossing one of its four edges. -/
def lineIntersectsRect (x1 y1 x2 y2 : ℚ) (rect : Rect) : Bool :=
  if pointInRect x1 y1 rect || pointInRect x2 y2 rect then true
  else
    let left := rect.x
    let right := rect.x + rect.width
    let top := rect.y
    let bottom := rect.y + rect.height
    lineIntersectsLine x1 y1 x2 y2 left top right top ||
    lineIntersectsLine x1 y1 x2 y2 left bottom right bottom ||
    lineIntersectsLine x1 y1 x2 y2 left top left bottom ||
    lineIntersectsLine x1 y1 x2 y2 right top right bottom

/-- An input snapshot: the five boolean intents sampled once per tick
(input.js getState, and the shape stored by ReplaySystem.recordTick). -/
structure InputSnapshot where
  left : Bool
  right : Bool
  up : Bool
  down : Bool
  action : Bool
deriving DecidableEq

/-- A body: the mutable state of the player or of a ghost
(entities.js createPlayer and createGhost, minus the type tag and the
ghost's recording reference, which the Ghost structure below carries). -/
structure Body where
  x : ℚ
  y : ℚ
  vx : ℚ
  vy : ℚ
  width : ℚ
  height : ℚ
  grounded : Bool
  facingRight : Bool
  isActive : Bool
deriving DecidableEq

/-- The collision rectangle of a body. -/
def Body.rect (b : Body) : Rect :=
  ⟨b.x, b.y, b.width, b.height⟩

/-- Physics.applyInput from physics.js: horizontal intent sets vx (left
checked before right), jump sets vy only while grounded and clears
grounded. -/
def applyInput (entity : Body) (input : InputSnapshot) : Body :=
  let entity :=
    if input.left then { entity with vx := -PLAYER_SPEED, facingRight := false }
    else if input.right then { entity with vx := PLAYER_SPEED, facingRight := true }
    else { entity with vx := 0 }
  if input.up && entity.grounded then
    { entity with vy := PLAYER_JUMP, grounded := false }
  else entity

/-- Physics.applyPhysics from physics.js: add gravity to vy, integrate
position by velocity, clear grounded. -/
def applyPhysics (entity : Body) : Body :=
  let entity := { entity with vy := entity.vy + GRAVITY }
  let entity := { entity with x := entity.x + entity.vx, y := entity.y + entity.vy }
  { entity with grounded := false }

/-- Physics.getOverlapX from physics.js: signed X push-out distance chosen
by comparing horizontal centers. -/
def getOverlapX (a b : Rect) : ℚ :=
  if a.x + a.width / 2 < b.x + b.width / 2 then b.x - (a.x + a.width)
  else (b.x + b.width) - a.x

/-- Physics.getOverlapY from physics.js: signed Y push-out distance chosen
by comparing vertical centers. -/
def getOverlapY (a b : Rect) : ℚ :=
  if a.y + a.height / 2 < b.y + b.height / 2 then b.y - (a.y + a.height)
  else (b.y + b.height) - a.y

/-- Physics.clampToBounds from physics.js: the four boundary clamps run in
source order (left, right, bottom, top); the bottom clamp also grounds the
body. -/
def clampToBounds (entity : Body) : Body :=
  let entity := if entity.x < 0 then { entity with x := 0, vx := 0 } else entity
  let entity :=
    if entity.x + entity.width > CANVAS_WIDTH then
      { entity with x := CANVAS_WIDTH - entity.width, vx := 0 }
    else entity
  let entity :=
    if entity.y + entity.height > CANVAS_HEIGHT then
      { entity with y := CANVAS_HEIGHT - entity.height, vy := 0, grounded := true }
    else entity
  if entity.y < 0 then { entity with y := 0, vy := 0 } else entity

/-- A switch entity (entities.js createSwitch). Identifiers are natural
numbers: the source draws unique opaque strings from generateId, and only
identity comparison ever touches them. -/
structure SwitchE where
  id : ℕ
  x : ℚ
  y : ℚ
  width : ℚ
  height : ℚ
  isPressed : Bool
  linkedIds : List ℕ
deriving DecidableEq

/-- A door entity (entities.js createDoor). -/
structure DoorE where
  id : ℕ
  x : ℚ
  y : ℚ
  width : ℚ
  height : ℚ
  isOpen : Bool
  initiallyOpen : Bool
deriving DecidableEq

/-- A wall entity (entities.js createWall). -/
structure WallE where
  x : ℚ
  y : ℚ
  width : ℚ
  height : ℚ
deriving DecidableEq

/-- A laser entity (entities.js createLaser). -/
structure LaserE where
  id : ℕ
  x1 : ℚ
  y1 : ℚ
  x2 : ℚ
  y2 : ℚ
  isBlocked : Bool
  linkedIds : List ℕ
deriving DecidableEq

/-- A goal entity (entities.js createGoal). -/
structure GoalE where
  x : ℚ
  y : ℚ
  width : ℚ
  height : ℚ
  isReached : Bool
deriving DecidableEq

/-- A world entity: the five type tags the source distinguishes through its
type field. -/
inductive WorldEntity where
  | wall (w : WallE)
  | switchE (s : SwitchE)
  | door (d : DoorE)
  | laser (l : LaserE)
  | goal (g : GoalE)
deriving DecidableEq

/-- The collision rectangle of a solid world entity, or none when the
entity does not collide: physics.js resolveCollisions skips every entity
that is not a wall and not a closed door. -/
def solidRect : WorldEntity → Option Rect
  | .wall w => some ⟨w.x, w.y, w.width, w.height⟩
  | .door d => if d.isOpen then none else some ⟨d.x, d.y, d.width, d.height⟩
  | _ => none

/-- The body of the resolveCollisions loop in physics.js, for one world
entity: skip non-solid entities and non-overlapping solids, otherwise push
the body out along the axis of smaller penetration, zero that velocity
component, and ground the body when the Y correction pushed it upward. -/
def resolveOne (entity : Body) (world : WorldEntity) : Body :=
  match solidRect world with
  | none => entity
  | some r =>
    if aabbOverlap entity.rect r then
      let overlapX := getOverlapX entity.rect r
      let overlapY := getOverlapY entity.rect r
      if |overlapX| < |overlapY| then
        { entity with x := entity.x + overlapX, vx := 0 }
      else
        let e2 := { entity with y := entity.y + overlapY, vy := 0 }
        if overlapY < 0 then { e2 with grounded := true } else e2
    else entity

/-- Physics.resolveCollisions from physics.js: fold the single-entity
resolution over the world entities in order, then clamp to the canvas. -/
def resolveCollisions (entity : Body) (worldEntities : List WorldEntity) : Body :=
  clampToBounds (worldEntities.foldl resolveOne entity)

/-- The per-tick body update shared by the player and every ghost
(game.js updatePlayer and updateGhost): applyInput, then applyPhysics,
then resolveCollisions. -/
def updateBody (entity : Body) (input : InputSnapshot) (worldEntities : List WorldEntity) : Body :=
  resolveCollisions (applyPhysics (applyInput entity input)) worldEntities

/-- A recording (replay.js createRecording shape): the tick-indexed input
history of one attempt. -/
structure Recording where
  id : String
  loopIndex : ℕ
  inputs : List InputSnapshot
  reachedGoal : Bool
  endTick : ℕ
deriving DecidableEq

/-- ReplaySystem.createRecording from replay.js. -/
def createRecording (loopIndex : ℕ) : Recording :=
  { id := "loop-" ++ toString loopIndex
    loopIndex := loopIndex
    inputs := []
    reachedGoal := false
    endTick := 0 }

/-- ReplaySystem.recordTick from replay.js: store the snapshot at position
tick. The scheduler calls this with tick equal to the number of inputs
already stored (one call per tick, ticks strictly increasing from 0), so
the store is an in-bounds overwrite or an append; the sparse-array holes a
JavaScript store beyond the end would create cannot arise and are not
modelled. -/
def recordTick (recording : Recording) (tick : ℕ) (inputState : InputSnapshot) : Recording :=
  { recording with
      inputs :=
        if tick < recording.inputs.length then recording.inputs.set tick inputState
        else recording.inputs ++ [inputState] }

/-- ReplaySystem.getInputAtTick from replay.js: none once tick is past the
end of the recorded inputs. -/
def getInputAtTick (recording : Recording) (tick : ℕ) : Option InputSnapshot :=
  if tick ≥ recording.inputs.length then none
  else recording.inputs[tick]?

/-- ReplaySystem.finalizeRecording from replay.js: set endTick and
reachedGoal and trim the inputs to the first endTick entries
(Array.prototype.slice, which never pads). -/
def finalizeRecording (recording : Recording) (endTick : ℕ) (reachedGoal : Bool) : Recording :=
  { recording with
      endTick := endTick
      reachedGoal := reachedGoal
      inputs := recording.inputs.take endTick }

/-- ReplaySystem.isGhostActive from replay.js: the ghost still has input
data for this tick. -/
def isGhostActive (recording : Recording) (tick : ℕ) : Bool :=
  decide (tick < recording.inputs.length)

/-- Entities.createPlayer from entities.js. -/
def createPlayer (x y : ℚ) : Body :=
  { x := x, y := y, vx := 0, vy := 0
    width := PLAYER_WIDTH, height := PLAYER_HEIGHT
    grounded := false, facingRight := true, isActive := true }

/-- Entities.createWall from entities.js. -/
def createWall (x y width height : ℚ) : WallE :=
  { x := x, y := y, width := width, height := height }

/-- Entities.createSwitch from entities.js; the identifier that generateId
draws is supplied by the caller. -/
def createSwitch (id : ℕ) (x y : ℚ) (linkedIds : List ℕ) : SwitchE :=
  { id := id, x := x, y := y
    width := SWITCH_SIZE, height := SWITCH_SIZE / 2
    isPressed := false, linkedIds := linkedIds }

/-- Entities.createDoor from entities.js. -/
def createDoor (id : ℕ) (x y height : ℚ) (initiallyOpen : Bool) : DoorE :=
  { id := id, x := x, y := y
    width := DOOR_WIDTH, height := height
    isOpen := initiallyOpen, initiallyOpen := initiallyOpen }

/-- Entities.createLaser from entities.js. -/
def createLaser (id : ℕ) (x1 y1 x2 y2 : ℚ) (linkedIds : List ℕ) : LaserE :=
  { id := id, x1 := x1, y1 := y1, x2 := x2, y2 := y2
    isBlocked := false, linkedIds := linkedIds }

/-- Entities.createGoal from entities.js. -/
def createGoal (x y width height : ℚ) : GoalE :=
  { x := x, y := y, width := width, height := height, isReached := false }

/-- The collision rectangle of a switch, as the duck-typed source reads it
through x, y, width, height. -/
def switchRect (s : SwitchE) : Rect :=
  ⟨s.x, s.y, s.width, s.height⟩

/-- The collision rectangle of a goal. -/
def goalRect (g : GoalE) : Rect :=
  ⟨g.x, g.y, g.width, g.height⟩

/-- Entities.updateSwitch from entities.js: pressed while at least one
active solid body overlaps the switch. The source also returns whether the
state changed, which only drives sound effects and is not modelled. -/
def updateSwitch (sw : SwitchE) (solidEntities : List Body) : SwitchE :=
  { sw with
      isPressed := solidEntities.any fun entity =>
        entity.isActive && aabbOverlap entity.rect (switchRect sw) }

/-- The switches of the entity list whose linkedIds name the door: the
filter at the top of Entities.updateDoor in entities.js. -/
def linkedSwitches (door : DoorE) (allEntities : List WorldEntity) : List SwitchE :=
  allEntities.filterMap fun e =>
    match e with
    | .switchE s => if s.linkedIds.contains door.id then some s else none
    | _ => none

/-- Entities.updateDoor from entities.js: with no linked switch the door
keeps its initial state; otherwise it is open while ANY linked switch is
pressed. -/
def updateDoor (door : DoorE) (allEntities : List WorldEntity) : DoorE :=
  let linked := linkedSwitches door allEntities
  if linked.isEmpty then { door with isOpen := door.initiallyOpen }
  else { door with isOpen := linked.any fun sw => sw.isPressed }

/-- Entities.updateLaser from entities.js: blocked while an active solid
body intersects the beam segment. -/
def updateLaser (laser : LaserE) (solidEntities : List Body) : LaserE :=
  { laser with
      isBlocked := solidEntities.any fun entity =>
        if entity.isActive then
          lineIntersectsRect laser.x1 laser.y1 laser.x2 laser.y2 entity.rect
        else false }

/-- A level entity descriptor: the fields of levels.js level data that
Levels.createEntities reads, together with the requiresBoth flag that level
3 declares on its door (the descriptor carries it whether or not any code
reads it). -/
inductive EntityDef where
  | wall (x y width height : ℚ)
  | switchD (x y : ℚ) (linkedDoorIndex : Option ℕ)
  | door (x y : ℚ) (height : Option ℚ) (linkedIndex : ℕ) (requiresBoth : Bool)
  | laser (x1 y1 x2 y2 : ℚ) (linkedIds : Option (List ℕ))
  | goal (x y : ℚ) (width height : Option ℚ)
deriving DecidableEq

/-- A numeric field defaulted with the JavaScript or-operator, which also
replaces an explicit zero because zero is falsy. -/
def orDefault (v : Option ℚ) (dflt : ℚ) : ℚ :=
  match v with
  | none => dflt
  | some w => if w = 0 then dflt else w

/-- The accumulator of the first pass of Levels.createEntities: the
entities built so far in reverse paired with the pending switch link, the
door reference table, and the next fresh identifier. -/
structure Pass1State where
  rev : List (WorldEntity × Option ℕ)
  doorRefs : List (ℕ × ℕ)
  nextId : ℕ

/-- One descriptor step of the first pass of Levels.createEntities: build
the entity, remember a switch's pending linkedDoorIndex, record a door's
identifier under its linkedIndex (a later door overwrites an earlier one
with the same index, so lookups read the most recent entry first), and
spend one fresh identifier per switch, door or laser. -/
def pass1Step (st : Pass1State) (d : EntityDef) : Pass1State :=
  match d with
  | .wall x y width height =>
      { st with rev := (.wall (createWall x y width height), none) :: st.rev }
  | .switchD x y linkedDoorIndex =>
      { st with
          rev := (.switchE (createSwitch st.nextId x y []), linkedDoorIndex) :: st.rev
          nextId := st.nextId + 1 }
  | .door x y height linkedIndex _requiresBoth =>
      { st with
          rev := (.door (createDoor st.nextId x y (orDefault height DOOR_HEIGHT) false), none) :: st.rev
          doorRefs := (linkedIndex, st.nextId) :: st.doorRefs
          nextId := st.nextId + 1 }
  | .laser x1 y1 x2 y2 linkedIds =>
      { st with
          rev := (.laser (createLaser st.nextId x1 y1 x2 y2 (linkedIds.getD [])), none) :: st.rev
          nextId := st.nextId + 1 }
  | .goal x y width height =>
      { st with
          rev := (.goal (createGoal x y (orDefault width 48) (orDefault height 48)), none) :: st.rev }

/-- The second pass of Levels.createEntities: resolve each switch's pending
linkedDoorIndex against the door reference table, appending the door's
identifier to the switch's linkedIds when the table has it (the source
identifiers are non-empty strings, always truthy). -/
def resolveLink (doorRefs : List (ℕ × ℕ)) : WorldEntity × Option ℕ → WorldEntity
  | (.switchE s, some k) =>
      match doorRefs.lookup k with
      | some doorId => .switchE { s with linkedIds := s.linkedIds ++ [doorId] }
      | none => .switchE s
  | (e, _) => e

/-- Levels.createEntities from levels.js: materialize the descriptors in
order, then resolve switch-to-door links. Every descriptor kind is known,
so the unknown-kind skip of the source is unreachable here. -/
def createEntities (defs : List EntityDef) : List WorldEntity :=
  let st := defs.foldl pass1Step ⟨[], [], 0⟩
  (st.rev.reverse).map (resolveLink st.doorRefs)

/-- A ghost: a body driven by a finalized recording
(entities.js createGhost). -/
structure Ghost where
  body : Body
  recording : Recording
deriving DecidableEq

/-- Entities.createGhost from entities.js: the same fresh body shape as the
player, bound to a recording. -/
def createGhost (x y : ℚ) (recording : Recording) : Ghost :=
  { body :=
      { x := x, y := y, vx := 0, vy := 0
        width := PLAYER_WIDTH, height := PLAYER_HEIGHT
        grounded := false, facingRight := true, isActive := true }
    recording := recording }

/-- The simulation state of the scheduler (the Game object of game.js,
restricted to the fields the simulation reads or writes: frame timing,
pause flags and DOM handles live outside the per-tick step). The level is
carried as its spawn point and descriptor list, which is everything
startNewLoop reads from it. -/
structure GameState where
  localTick : ℕ
  globalTick : ℕ
  loopIndex : ℕ
  player : Body
  ghosts : List Ghost
  entities : List WorldEntity
  currentRecording : Recording
  recordings : List Recording
  levelComplete : Bool
  spawnX : ℚ
  spawnY : ℚ
  levelDefs : List EntityDef
deriving DecidableEq

/-- Game.updateGhost from game.js: an inactive ghost is skipped; a ghost
with no recorded input at this tick is deactivated; otherwise the ghost
runs the same input-physics-collision sequence as the player. -/
def updateGhost (localTick : ℕ) (entities : List WorldEntity) (g : Ghost) : Ghost :=
  if g.body.isActive then
    match getInputAtTick g.recording localTick with
    | none => { g with body := { g.body with isActive := false } }
    | some input => { g with body := updateBody g.body input entities }
  else g

/-- Game.updateWorldEntities from game.js: collect the solid bodies (the
player and the still-active ghosts), then update every switch, then every
door against the switch-updated entity list, then every laser. -/
def updateWorldEntities (player : Body) (ghosts : List Ghost) (entities : List WorldEntity) :
    List WorldEntity :=
  let solidEntities := player :: (ghosts.filter fun g => g.body.isActive).map Ghost.body
  let es1 := entities.map fun e =>
    match e with
    | .switchE s => WorldEntity.switchE (updateSwitch s solidEntities)
    | _ => e
  let es2 := es1.map fun e =>
    match e with
    | .door d => WorldEntity.door (updateDoor d es1)
    | _ => e
  es2.map fun e =>
    match e with
    | .laser l => WorldEntity.laser (updateLaser l solidEntities)
    | _ => e

/-- Whether a world entity is the goal (the find predicate of
Game.checkWinCondition). -/
def isGoalEntity : WorldEntity → Bool
  | .goal _ => true
  | _ => false

/-- Game.checkWinCondition from game.js, as the condition it tests: a goal
entity exists, the player is active, and the player overlaps the goal. -/
def checkWinCondition (player : Body) (entities : List WorldEntity) : Bool :=
  match entities.find? isGoalEntity with
  | some (.goal g) => player.isActive && aabbOverlap player.rect (goalRect g)
  | _ => false

/-- Game.startNewLoop from game.js: reset the local tick, open a fresh
recording for the current loop index, respawn the player, spawn one ghost
per finalized recording in order, and rebuild the world entities from the
level data. -/
def startNewLoop (st : GameState) : GameState :=
  { st with
      localTick := 0
      currentRecording := createRecording st.loopIndex
      player := createPlayer st.spawnX st.spawnY
      ghosts := st.recordings.map (createGhost st.spawnX st.spawnY)
      entities := createEntities st.levelDefs }

/-- Game.endLoop from game.js: finalize the live recording at the current
local tick and append it to the recordings list; on a win mark the level
complete, otherwise advance the loop index and start the next loop. In the
source the appended entry and currentRecording alias one mutable object;
the model stores the object's value at the moment of the push. -/
def endLoop (reachedGoal : Bool) (st : GameState) : GameState :=
  let finalized := finalizeRecording st.currentRecording st.localTick reachedGoal
  let st1 :=
    { st with
        currentRecording := finalized
        recordings := st.recordings ++ [finalized] }
  if reachedGoal then { st1 with levelComplete := true }
  else startNewLoop { st1 with loopIndex := st1.loopIndex + 1 }

/-- The player after the body-update phase of one tick of
Game.simulationTick (an inactive player is not updated). -/
def tickPlayer (st : GameState) (input : InputSnapshot) : Body :=
  if st.player.isActive then updateBody st.player input st.entities else st.player

/-- The ghosts after the body-update phase of one tick, in spawn order,
against the pre-tick world entities. -/
def tickGhosts (st : GameState) : List Ghost :=
  st.ghosts.map (updateGhost st.localTick st.entities)

/-- The world entities after the world-update phase of one tick. -/
def tickEntities (st : GameState) (input : InputSnapshot) : List WorldEntity :=
  updateWorldEntities (tickPlayer st input) (tickGhosts st) st.entities

/-- Game.simulationTick from game.js, in source order: record the sampled
input at the current local tick, update the player, update each ghost,
update the world entities, check the win condition (which may end the
loop), advance both tick counters, and end the loop when the local tick
has reached LOOP_TICKS. The updateUI step only writes to the DOM and is
not modelled. -/
def simulationTick (input : InputSnapshot) (st : GameState) : GameState :=
  let st1 :=
    { st with
        currentRecording := recordTick st.currentRecording st.localTick input
        player := tickPlayer st input
        ghosts := tickGhosts st
        entities := tickEntities st input }
  let st2 := if checkWinCondition st1.player st1.entities then endLoop true st1 else st1
  let st3 := { st2 with localTick := st2.localTick + 1, globalTick := st2.globalTick + 1 }
  if st3.localTick ≥ LOOP_TICKS then endLoop false st3 else st3

/-- The position and velocity trajectory of one body driven by a list of
input snapshots against a fixed world-entity set, one updateBody step per
snapshot: the quantity the determinism property quantifies over. -/
def trajectory (b : Body) (ws : List WorldEntity) : List InputSnapshot → List (ℚ × ℚ × ℚ × ℚ)
  | [] => []
  | input :: rest =>
      let b1 := updateBody b input ws
      (b1.x, b1.y, b1.vx, b1.vy) :: trajectory b1 ws rest

/-- The trajectory of a ghost replaying a recording through getInputAtTick,
starting at the given tick with the given step budget; the replay stops
where the recording has no input (the deactivation branch of
Game.updateGhost). -/
def ghostTrajectory (rec : Recording) (ws : List WorldEntity) :
    Body → ℕ → ℕ → List (ℚ × ℚ × ℚ × ℚ)
  | _, 0, _ => []
  | b, n + 1, tick =>
      match getInputAtTick rec tick with
      | none => []
      | some input =>
          let b1 := updateBody b input ws
          (b1.x, b1.y, b1.vx, b1.vy) :: ghostTrajectory rec ws b1 n (tick + 1)

/-- Reading a recording at a tick is exactly indexing its input list. -/
lemma getInputAtTick_eq (rec : Recording) (tick : ℕ) :
    getInputAtTick rec tick = rec.inputs[tick]? := by
  unfold getInputAtTick
  split
  · next h => exact (List.getElem?_eq_none h).symm
  · rfl

/-- A ghost replay through getInputAtTick walks the recorded input list:
with step budget n starting at tick t it follows the inputs drop t, take n.
-/
lemma ghostTrajectory_eq_trajectory (rec : Recording) (ws : List WorldEntity) :
    ∀ (n t : ℕ) (b : Body),
      ghostTrajectory rec ws b n t = trajectory b ws ((rec.inputs.drop t).take n) := by
  intro n
  induction n with
  | zero => intro t b; simp [ghostTrajectory, trajectory]
  | succ n ih =>
      intro t b
      by_cases ht : t < rec.inputs.length
      · rw [List.drop_eq_getElem_cons ht]
        have hsome : getInputAtTick rec t = some rec.inputs[t] := by
          rw [getInputAtTick_eq, List.getElem?_eq_getElem ht]
        simp only [ghostTrajectory, hsome, List.take_succ_cons, trajectory]
        rw [ih]
      · have hnone : getInputAtTick rec t = none := by
          rw [getInputAtTick_eq, List.getElem?_eq_none (le_of_not_lt ht)]
        have hdrop : rec.inputs.drop t = [] :=
          List.drop_eq_nil_of_le (le_of_not_lt ht)
        simp [ghostTrajectory, hnone, hdrop, trajectory]

/-- C1: the per-tick body update (applyInput, then applyPhysics, then
resolveCollisions) is deterministic: two runs from structurally equal
bodies against structurally equal world-entity sets on the same input
sequence produce identical position and velocity trajectories, and a ghost
replaying a recording of that sequence through getInputAtTick reproduces
exactly the trajectory of the recorded inputs. -/
theorem tick_update_deterministic (b1 b2 : Body) (ws1 ws2 : List WorldEntity)
    (rec : Recording) (hb : b1 = b2) (hw : ws1 = ws2) :
    (∀ inputs : List InputSnapshot, trajectory b1 ws1 inputs = trajectory b2 ws2 inputs) ∧
    ghostTrajectory rec ws1 b1 rec.inputs.length 0 = trajectory b2 ws2 rec.inputs := by
  subst hb hw
  refine ⟨fun _ => rfl, ?_⟩
  rw [ghostTrajectory_eq_trajectory]
  simp

/-- A concrete body, world and recording for the determinism witness. -/
def w1Body : Body := createPlayer 50 500

/-- The world-entity set of the determinism witness. -/
def w1Ws : List WorldEntity := [.wall (createWall 0 568 800 32)]

/-- The recording of the determinism witness: two ticks of pressing right.
-/
def w1Rec : Recording :=
  { id := "loop-1", loopIndex := 1
    inputs := [⟨false, true, false, false, false⟩, ⟨false, true, false, false, false⟩]
    reachedGoal := false, endTick := 2 }

/-- Witness for C1 at a concrete body, world and recording. -/
theorem tick_update_deterministic_witness :
    ghostTrajectory w1Rec w1Ws w1Body w1Rec.inputs.length 0 =
      trajectory w1Body w1Ws w1Rec.inputs :=
  (tick_update_deterministic w1Body w1Body w1Ws w1Ws w1Rec rfl rfl).2

/-- C5 counterexample: finalizing a fresh recording with endTick 1 leaves
zero inputs, because Array.prototype.slice never pads: the claimed equality
inputs.length == endTick fails when endTick exceeds the recorded count. -/
theorem finalizeRecording_no_padding_counterexample :
    (finalizeRecording (createRecording 1) 1 true).endTick = 1 ∧
    (finalizeRecording (createRecording 1) 1 true).inputs.length = 0 ∧
    (finalizeRecording (createRecording 1) 1 true).inputs.length ≠
      (finalizeRecording (createRecording 1) 1 true).endTick := by
  refine ⟨rfl, rfl, ?_⟩
  simp [finalizeRecording, createRecording]

/-- C5 amended: finalizeRecording sets endTick and reachedGoal and
truncates the inputs to the first endTick entries without padding, so the
resulting length is the minimum of endTick and the prior length, and
equals endTick exactly when endTick does not exceed the number of inputs
recorded so far; the kept inputs are a gap-free prefix of the recorded
ones. -/
theorem finalizeRecording_truncates (rec : Recording) (endTick : ℕ) (reachedGoal : Bool) :
    (finalizeRecording rec endTick reachedGoal).endTick = endTick ∧
    (finalizeRecording rec endTick reachedGoal).reachedGoal = reachedGoal ∧
    (finalizeRecording rec endTick reachedGoal).inputs = rec.inputs.take endTick ∧
    (finalizeRecording rec endTick reachedGoal).inputs.length = min endTick rec.inputs.length ∧
    (endTick ≤ rec.inputs.length →
      (finalizeRecording rec endTick reachedGoal).inputs.length = endTick) := by
  refine ⟨rfl, rfl, rfl, ?_, ?_⟩
  · simp [finalizeRecording]
  · intro h
    simp [finalizeRecording]
    omega

/-- Witness for the amended C5 at a concrete recording. -/
theorem finalizeRecording_truncates_witness :
    (finalizeRecording w1Rec 2 true).endTick = 2 ∧
    (finalizeRecording w1Rec 2 true).reachedGoal = true ∧
    (finalizeRecording w1Rec 2 true).inputs = w1Rec.inputs.take 2 ∧
    (finalizeRecording w1Rec 2 true).inputs.length = min 2 w1Rec.inputs.length ∧
    (2 ≤ w1Rec.inputs.length → (finalizeRecording w1Rec 2 true).inputs.length = 2) :=
  finalizeRecording_truncates w1Rec 2 true

/-- C7: for a recording satisfying the density invariant
inputs.length == endTick, isGhostActive is true exactly below endTick and
false from endTick on, the two characterizations through endTick and
through the input count coinciding. -/
theorem isGhostActive_iff_below_endTick (rec : Recording) (tick : ℕ)
    (hdense : rec.inputs.length = rec.endTick) :
    (tick < rec.endTick → isGhostActive rec tick = true) ∧
    (rec.endTick ≤ tick → isGhostActive rec tick = false) ∧
    (isGhostActive rec tick = true ↔ tick < rec.inputs.length) := by
  refine ⟨fun h => ?_, fun h => ?_, ?_⟩
  · simp [isGhostActive, hdense, h]
  · simp [isGhostActive, hdense]
    omega
  · simp [isGhostActive]

/-- Witness for C7: a one-input finalized recording is active at tick 0
and inactive at tick 1. -/
theorem isGhostActive_iff_below_endTick_witness :
    isGhostActive (finalizeRecording w1Rec 1 false) 0 = true ∧
    isGhostActive (finalizeRecording w1Rec 1 false) 1 = false := by
  refine ⟨(isGhostActive_iff_below_endTick (finalizeRecording w1Rec 1 false) 0 rfl).1 ?_,
    (isGhostActive_iff_below_endTick (finalizeRecording w1Rec 1 false) 1 rfl).2.1 ?_⟩
  · show 0 < 1
    decide
  · show 1 ≤ 1
    decide

/-- C9: aabbOverlap is true exactly for strictly positive overlap on both
axes, rectangles that touch edge-to-edge do not overlap, and a player whose
rectangle exactly touches the goal rectangle does not trigger the win
condition. -/
theorem aabbOverlap_open_semantics (a b : Rect) (p : Body) (g : GoalE)
    (rest : List WorldEntity)
    (htouchAB : a.x + a.width = b.x) (htouchPG : p.x + p.width = g.x) :
    (∀ c d : Rect, aabbOverlap c d = true ↔
      (c.x < d.x + d.width ∧ d.x < c.x + c.width ∧
        c.y < d.y + d.height ∧ d.y < c.y + c.height)) ∧
    aabbOverlap a b = false ∧
    checkWinCondition p (WorldEntity.goal g :: rest) = false := by
  refine ⟨?_, ?_, ?_⟩
  · intro c d
    simp [aabbOverlap, and_assoc]
  · simp [aabbOverlap, htouchAB]
  · have hfind : (WorldEntity.goal g :: rest).find? isGoalEntity = some (.goal g) := by
      simp [List.find?, isGoalEntity]
    have hov : aabbOverlap p.rect (goalRect g) = false := by
      simp [aabbOverlap, Body.rect, goalRect, htouchPG]
    unfold checkWinCondition
    rw [hfind]
    dsimp only
    rw [hov, Bool.and_false]

/-- Witness for C9: a 32-wide rectangle at x 0 touching one at x 32, and a
player at x 668 exactly touching the goal at x 700. -/
theorem aabbOverlap_open_semantics_witness :
    aabbOverlap ⟨0, 0, 32, 32⟩ ⟨32, 0, 48, 48⟩ = false ∧
    checkWinCondition (createPlayer 668 520)
      [WorldEntity.goal (createGoal 700 520 48 48)] = false := by
  have h := aabbOverlap_open_semantics ⟨0, 0, 32, 32⟩ ⟨32, 0, 48, 48⟩
    (createPlayer 668 520) (createGoal 700 520 48 48) [] (by norm_num)
    (by norm_num [createPlayer, createGoal, PLAYER_WIDTH])
  exact ⟨h.2.1, h.2.2⟩

/-- Input application never changes a body's dimensions. -/
lemma applyInput_dims (b : Body) (i : InputSnapshot) :
    (applyInput b i).width = b.width ∧ (applyInput b i).height = b.height := by
  rcases i with ⟨l, r, u, d, a⟩
  cases l <;> cases r <;> cases u <;> cases hb : b.grounded <;>
    simp [applyInput, hb]

/-- Physics integration never changes a body's dimensions. -/
lemma applyPhysics_dims (b : Body) :
    (applyPhysics b).width = b.width ∧ (applyPhysics b).height = b.height :=
  ⟨rfl, rfl⟩

/-- One collision resolution step never changes a body's dimensions. -/
lemma resolveOne_dims (b : Body) (w : WorldEntity) :
    (resolveOne b w).width = b.width ∧ (resolveOne b w).height = b.height := by
  unfold resolveOne
  cases hsr : solidRect w with
  | none => exact ⟨rfl, rfl⟩
  | some r =>
      dsimp only
      split_ifs <;> exact ⟨rfl, rfl⟩

/-- The collision fold never changes a body's dimensions. -/
lemma foldl_resolveOne_dims (ws : List WorldEntity) :
    ∀ b : Body,
      (ws.foldl resolveOne b).width = b.width ∧ (ws.foldl resolveOne b).height = b.height := by
  induction ws with
  | nil => intro b; exact ⟨rfl, rfl⟩
  | cons hd tl ih =>
      intro b
      rw [List.foldl_cons]
      have h1 := resolveOne_dims b hd
      have h2 := ih (resolveOne b hd)
      exact ⟨h2.1.trans h1.1, h2.2.trans h1.2⟩

/-- Clamping never changes a body's dimensions. -/
lemma clampToBounds_dims (e : Body) :
    (clampToBounds e).width = e.width ∧ (clampToBounds e).height = e.height := by
  simp only [clampToBounds]
  split_ifs <;> exact ⟨rfl, rfl⟩

/-- Clamping a body no larger than the canvas leaves it inside the canvas:
the left, right, bottom, top clamps of physics.js run in that order, and
the bottom clamp keeps y nonnegative exactly because the body's height is
at most the canvas height. -/
lemma clampToBounds_bounds (e : Body) (hw : e.width ≤ CANVAS_WIDTH)
    (hh : e.height ≤ CANVAS_HEIGHT) :
    0 ≤ (clampToBounds e).x ∧
    (clampToBounds e).x + (clampToBounds e).width ≤ CANVAS_WIDTH ∧
    0 ≤ (clampToBounds e).y ∧
    (clampToBounds e).y + (clampToBounds e).height ≤ CANVAS_HEIGHT := by
  simp only [clampToBounds]
  split_ifs <;> refine ⟨?_, ?_, ?_, ?_⟩ <;> simp_all

/-- C8: a body no larger than the canvas ends every simulation tick inside
the canvas: after the per-tick update (applyInput, applyPhysics,
resolveCollisions ending in clampToBounds) its position satisfies the
bounds invariant. -/
theorem body_update_bounds (b : Body) (i : InputSnapshot) (ws : List WorldEntity)
    (hw : b.width ≤ CANVAS_WIDTH) (hh : b.height ≤ CANVAS_HEIGHT) :
    0 ≤ (updateBody b i ws).x ∧
    (updateBody b i ws).x ≤ CANVAS_WIDTH - (updateBody b i ws).width ∧
    0 ≤ (updateBody b i ws).y ∧
    (updateBody b i ws).y ≤ CANVAS_HEIGHT - (updateBody b i ws).height := by
  have hai := applyInput_dims b i
  have hap := applyPhysics_dims (applyInput b i)
  have hfold := foldl_resolveOne_dims ws (applyPhysics (applyInput b i))
  set e := ws.foldl resolveOne (applyPhysics (applyInput b i)) with he
  have hew : e.width = b.width := by rw [hfold.1, hap.1, hai.1]
  have heh : e.height = b.height := by rw [hfold.2, hap.2, hai.2]
  have hcb := clampToBounds_bounds e (by rw [hew]; exact hw) (by rw [heh]; exact hh)
  have hu : updateBody b i ws = clampToBounds e := rfl
  rw [hu]
  exact ⟨hcb.1, by linarith [hcb.2.1], hcb.2.2.1, by linarith [hcb.2.2.2]⟩

/-- Witness for C8: the bounds invariant after one idle tick of a freshly
spawned player over an empty world. -/
theorem body_update_bounds_witness :
    0 ≤ (updateBody w1Body ⟨false, false, false, false, false⟩ []).x ∧
    (updateBody w1Body ⟨false, false, false, false, false⟩ []).x ≤
      CANVAS_WIDTH - (updateBody w1Body ⟨false, false, false, false, false⟩ []).width ∧
    0 ≤ (updateBody w1Body ⟨false, false, false, false, false⟩ []).y ∧
    (updateBody w1Body ⟨false, false, false, false, false⟩ []).y ≤
      CANVAS_HEIGHT - (updateBody w1Body ⟨false, false, false, false, false⟩ []).height :=
  body_update_bounds w1Body ⟨false, false, false, false, false⟩ []
    (by norm_num [w1Body, createPlayer, PLAYER_WIDTH, CANVAS_WIDTH])
    (by norm_num [w1Body, createPlayer, PLAYER_HEIGHT, CANVAS_HEIGHT])

/-- Every door built by the first pass of createEntities carries
initiallyOpen false and starts closed, whatever the descriptor said. -/
lemma pass1_doors_closed (defs : List EntityDef) :
    ∀ st0 : Pass1State,
      (∀ p ∈ st0.rev, ∀ d : DoorE, p.1 = WorldEntity.door d →
        d.initiallyOpen = false ∧ d.isOpen = false) →
      ∀ p ∈ (defs.foldl pass1Step st0).rev, ∀ d : DoorE,
        p.1 = WorldEntity.door d → d.initiallyOpen = false ∧ d.isOpen = false := by
  induction defs with
  | nil => intro st0 h; exact h
  | cons hd tl ih =>
      intro st0 h
      rw [List.foldl_cons]
      apply ih
      intro p hp d hpd
      cases hd <;> simp only [pass1Step] at hp <;> rcases List.mem_cons.1 hp with h1 | h1
      case wall.inl =>
        rw [h1] at hpd
        simp at hpd
      case wall.inr => exact h p h1 d hpd
      case switchD.inl =>
        rw [h1] at hpd
        simp at hpd
      case switchD.inr => exact h p h1 d hpd
      case door.inl =>
        rw [h1] at hpd
        simp only at hpd
        injection hpd with hpd
        rw [← hpd]
        exact ⟨rfl, rfl⟩
      case door.inr => exact h p h1 d hpd
      case laser.inl =>
        rw [h1] at hpd
        simp at hpd
      case laser.inr => exact h p h1 d hpd
      case goal.inl =>
        rw [h1] at hpd
        simp at hpd
      case goal.inr => exact h p h1 d hpd

/-- A door in the output of createEntities has initiallyOpen false and is
created closed: the link-resolution pass rewrites only switches. -/
lemma createEntities_door_closed (defs : List EntityDef) (d : DoorE)
    (h : WorldEntity.door d ∈ createEntities defs) :
    d.initiallyOpen = false ∧ d.isOpen = false := by
  unfold createEntities at h
  obtain ⟨p, hp, hpe⟩ := List.mem_map.1 h
  rw [List.mem_reverse] at hp
  have hp1 : p.1 = WorldEntity.door d := by
    rcases p with ⟨e, opt⟩
    cases e <;> rcases opt with _ | k <;> simp only [resolveLink] at hpe <;>
      first
        | exact hpe
        | (revert hpe; cases ((defs.foldl pass1Step ⟨[], [], 0⟩).doorRefs).lookup k <;>
            intro hpe <;> simp at hpe)
  exact pass1_doors_closed defs ⟨[], [], 0⟩ (by intro p hp; simp at hp) p hp d hp1

/-- C10: entity construction creates every door closed with initiallyOpen
false, so a door with no linked switch in the entity list is closed after
the per-tick door update and remains solid. -/
theorem unlinked_door_stays_closed (defs : List EntityDef) (d : DoorE)
    (ws : List WorldEntity)
    (hmem : WorldEntity.door d ∈ createEntities defs)
    (hnolink : ∀ s : SwitchE, WorldEntity.switchE s ∈ ws →
      s.linkedIds.contains d.id = false) :
    d.initiallyOpen = false ∧
    (updateDoor d ws).isOpen = false ∧
    solidRect (WorldEntity.door (updateDoor d ws)) =
      some ⟨d.x, d.y, d.width, d.height⟩ := by
  have h1 := createEntities_door_closed defs d hmem
  have h2 : linkedSwitches d ws = [] := by
    unfold linkedSwitches
    rw [List.filterMap_eq_nil_iff]
    intro e he
    cases e
    case switchE s => simpa using hnolink s he
    all_goals rfl
  have hopen : (updateDoor d ws).isOpen = false := by
    simp [updateDoor, h2, h1.1]
  refine ⟨h1.1, hopen, ?_⟩
  have hrest : updateDoor d ws = { d with isOpen := d.initiallyOpen } := by
    simp [updateDoor, h2]
  rw [hrest]
  simp [solidRect, h1.1]

/-- The single-door level of the C10 witness. -/
def w10Defs : List EntityDef := [.door 500 504 (some 64) 0 false]

/-- The door that createEntities builds from the C10 witness level. -/
def w10Door : DoorE :=
  { id := 0, x := 500, y := 504, width := 16, height := 64
    isOpen := false, initiallyOpen := false }

/-- Witness for C10: the door of the one-door level is closed after a door
update against an entity list with no switches. -/
theorem unlinked_door_stays_closed_witness :
    w10Door.initiallyOpen = false ∧
    (updateDoor w10Door []).isOpen = false ∧
    solidRect (WorldEntity.door (updateDoor w10Door [])) =
      some ⟨w10Door.x, w10Door.y, w10Door.width, w10Door.height⟩ :=
  unlinked_door_stays_closed w10Defs w10Door []
    (by norm_num [createEntities, w10Defs, pass1Step, createDoor, orDefault,
      resolveLink, w10Door, DOOR_WIDTH, DOOR_HEIGHT])
    (by intro s hs; simp at hs)

/-- A body lying inside the canvas play area. -/
def inBounds (e : Body) : Prop :=
  0 ≤ e.x ∧ e.x + e.width ≤ CANVAS_WIDTH ∧ 0 ≤ e.y ∧ e.y + e.height ≤ CANVAS_HEIGHT

/-- Clamping a body that is already inside the canvas changes nothing. -/
lemma clampToBounds_id (e : Body) (h : inBounds e) : clampToBounds e = e := by
  obtain ⟨h1, h2, h3, h4⟩ := h
  simp only [clampToBounds]
  rw [if_neg (not_lt.2 h1), if_neg (not_lt.2 h2), if_neg (not_lt.2 h4),
    if_neg (not_lt.2 h3)]

/-- The collision fold leaves a body alone when the body overlaps no solid
entity of the list. -/
lemma foldl_resolveOne_id (b : Body) (l : List WorldEntity)
    (h : ∀ w ∈ l, ∀ r, solidRect w = some r → aabbOverlap b.rect r = false) :
    l.foldl resolveOne b = b := by
  induction l with
  | nil => rfl
  | cons hd tl ih =>
      have hhd : resolveOne b hd = b := by
        unfold resolveOne
        cases hsr : solidRect hd with
        | none => rfl
        | some r =>
            dsimp only
            rw [h hd (List.mem_cons_self hd tl) r hsr]
            rfl
      rw [List.foldl_cons, hhd]
      exact ih fun w hw r hr => h w (List.mem_cons_of_mem hd hw) r hr

/-- The body of the C6 counterexample, overlapping a wall that sits flush
against the right part of the canvas. -/
def c6Body : Body :=
  { x := 772, y := 100, vx := 0, vy := 0, width := 32, height := 32
    grounded := false, facingRight := true, isActive := true }

/-- The wall of the C6 counterexample. -/
def c6Wall : WorldEntity := .wall { x := 780, y := 0, width := 10, height := 600 }

/-- The body after one resolveCollisions pass of the C6 counterexample:
pushed right out of the wall to x 790 and then clamped back to x 768,
inside the wall again. -/
def c6Mid : Body :=
  { x := 768, y := 100, vx := 0, vy := 0, width := 32, height := 32
    grounded := false, facingRight := true, isActive := true }

/-- C6 counterexample: the smaller-axis push-out sends the body past the
canvas edge, the bounds clamp pushes it back inside the wall, so the pass
ends with the body overlapping a solid wall, and a second immediate pass
moves it again (to x 748): containment and idempotence both fail as
stated. -/
theorem resolveCollisions_residual_overlap_counterexample :
    solidRect c6Wall = some ⟨780, 0, 10, 600⟩ ∧
    resolveCollisions c6Body [c6Wall] = c6Mid ∧
    aabbOverlap c6Mid.rect ⟨780, 0, 10, 600⟩ = true ∧
    resolveCollisions c6Mid [c6Wall] = { c6Mid with x := 748 } ∧
    resolveCollisions (resolveCollisions c6Body [c6Wall]) [c6Wall] ≠
      resolveCollisions c6Body [c6Wall] := by
  have h1 : resolveCollisions c6Body [c6Wall] = c6Mid := by
    norm_num [resolveCollisions, List.foldl, resolveOne, solidRect, c6Body, c6Wall,
      c6Mid, aabbOverlap, Body.rect, getOverlapX, getOverlapY, clampToBounds,
      abs_eq_max_neg, max_def, CANVAS_WIDTH, CANVAS_HEIGHT]
  have h2 : resolveCollisions c6Mid [c6Wall] = { c6Mid with x := 748 } := by
    norm_num [resolveCollisions, List.foldl, resolveOne, solidRect, c6Wall,
      c6Mid, aabbOverlap, Body.rect, getOverlapX, getOverlapY, clampToBounds,
      abs_eq_max_neg, max_def, CANVAS_WIDTH, CANVAS_HEIGHT]
  refine ⟨rfl, h1, ?_, h2, ?_⟩
  · norm_num [aabbOverlap, Body.rect, c6Mid]
  · rw [h1, h2]
    intro hcontra
    have := congrArg Body.x hcontra
    norm_num [c6Mid] at this

/-- C6 amended: the unconditional no-overlap guarantee fails (single-pass
resolution interacting with the bounds clamp can leave residual overlap),
but whenever a resolveCollisions pass ends with the body overlapping no
solid entity and inside the canvas, an immediate second pass leaves
position, velocity and the grounded flag unchanged. -/
theorem resolveCollisions_idempotent_when_separated (b : Body) (ws : List WorldEntity)
    (hsep : ∀ w ∈ ws, ∀ r, solidRect w = some r →
      aabbOverlap (resolveCollisions b ws).rect r = false)
    (hin : inBounds (resolveCollisions b ws)) :
    resolveCollisions (resolveCollisions b ws) ws = resolveCollisions b ws := by
  have hstep : resolveCollisions (resolveCollisions b ws) ws =
      clampToBounds (ws.foldl resolveOne (resolveCollisions b ws)) := rfl
  rw [hstep, foldl_resolveOne_id (resolveCollisions b ws) ws hsep,
    clampToBounds_id _ hin]

/-- Witness for the amended C6: a freshly spawned player over an empty
world is separated and in bounds after one pass, and the second pass is a
no-op. -/
theorem resolveCollisions_idempotent_when_separated_witness :
    resolveCollisions (resolveCollisions w1Body []) [] = resolveCollisions w1Body [] :=
  resolveCollisions_idempotent_when_separated w1Body []
    (by intro w hw; simp at hw)
    (by norm_num [inBounds, resolveCollisions, List.foldl, clampToBounds, w1Body,
      createPlayer, PLAYER_WIDTH, PLAYER_HEIGHT, CANVAS_WIDTH, CANVAS_HEIGHT])

/-- A tick that neither wins nor reaches the loop boundary just records the
input, applies the body and world updates, and advances both counters. -/
lemma simulationTick_no_end (input : InputSnapshot) (st : GameState)
    (hwin : checkWinCondition (tickPlayer st input) (tickEntities st input) = false)
    (hT : st.localTick + 1 < LOOP_TICKS) :
    simulationTick input st =
      { st with
          currentRecording := recordTick st.currentRecording st.localTick input
          player := tickPlayer st input
          ghosts := tickGhosts st
          entities := tickEntities st input
          localTick := st.localTick + 1
          globalTick := st.globalTick + 1 } := by
  simp only [simulationTick]
  rw [hwin]
  simp only [Bool.false_eq_true, if_false]
  rw [if_neg (not_le.2 hT)]

/-- C2 amended, general form: when the player ends the movement phase of a
tick overlapping a switch that links to a door, the world-update phase of
that same tick (switch pass, then door pass) already sets the door's
isOpen to true; the one-tick latency concerns only solidity, since this
tick's collision pass used the pre-update door state. -/
theorem door_opens_in_same_tick (player : Body) (ghosts : List Ghost)
    (entities : List WorldEntity) (s : SwitchE) (d : DoorE) (k : ℕ)
    (hactive : player.isActive = true)
    (hover : aabbOverlap player.rect (switchRect s) = true)
    (hmem : WorldEntity.switchE s ∈ entities)
    (hlink : s.linkedIds.contains d.id = true)
    (hk : entities[k]? = some (WorldEntity.door d)) :
    (updateWorldEntities player ghosts entities)[k]? =
      some (WorldEntity.door { d with isOpen := true }) := by
  simp only [updateWorldEntities]
  rw [List.getElem?_map, List.getElem?_map, List.getElem?_map, hk]
  simp only [Option.map_some']
  have hpressed :
      (updateSwitch s (player :: (ghosts.filter fun g => g.body.isActive).map Ghost.body)).isPressed
        = true := by
    simp only [updateSwitch]
    exact List.any_eq_true.2 ⟨player, List.mem_cons_self _ _, by rw [hactive, hover]; rfl⟩
  have hs1 :
      WorldEntity.switchE
          (updateSwitch s (player :: (ghosts.filter fun g => g.body.isActive).map Ghost.body)) ∈
        entities.map fun e =>
          match e with
          | .switchE s =>
              WorldEntity.switchE
                (updateSwitch s (player :: (ghosts.filter fun g => g.body.isActive).map Ghost.body))
          | _ => e :=
    List.mem_map_of_mem _ hmem
  have hmemLinked :
      updateSwitch s (player :: (ghosts.filter fun g => g.body.isActive).map Ghost.body) ∈
        linkedSwitches d
          (entities.map fun e =>
            match e with
            | .switchE s =>
                WorldEntity.switchE
                  (updateSwitch s
                    (player :: (ghosts.filter fun g => g.body.isActive).map Ghost.body))
            | _ => e) := by
    apply List.mem_filterMap.2
    refine ⟨_, hs1, ?_⟩
    have hids :
        (updateSwitch s
            (player :: (ghosts.filter fun g => g.body.isActive).map Ghost.body)).linkedIds =
          s.linkedIds := rfl
    dsimp only
    rw [hids, hlink]
    rfl
  have hne :
      (linkedSwitches d
        (entities.map fun e =>
          match e with
          | .switchE s =>
              WorldEntity.switchE
                (updateSwitch s
                  (player :: (ghosts.filter fun g => g.body.isActive).map Ghost.body))
          | _ => e)).isEmpty = false := by
    simpa using List.ne_nil_of_mem hmemLinked
  have hany :
      (linkedSwitches d
        (entities.map fun e =>
          match e with
          | .switchE s =>
              WorldEntity.switchE
                (updateSwitch s
                  (player :: (ghosts.filter fun g => g.body.isActive).map Ghost.body))
          | _ => e)).any (fun sw => sw.isPressed) = true :=
    List.any_eq_true.2 ⟨_, hmemLinked, hpressed⟩
  simp only [updateDoor, hne, hany, Bool.false_eq_true, if_false]

/-- The player of the C2 scenario, one step left of the switch, standing on
the floor. -/
def c2Player : Body :=
  { x := 65, y := 536, vx := 0, vy := 0, width := 32, height := 32
    grounded := true, facingRight := true, isActive := true }

/-- The switch of the C2 scenario, linked to the door with identifier 1. -/
def c2Switch : SwitchE :=
  { id := 0, x := 100, y := 548, width := 40, height := 20
    isPressed := false, linkedIds := [1] }

/-- The closed door of the C2 scenario. -/
def c2Door : DoorE :=
  { id := 1, x := 500, y := 504, width := 16, height := 64
    isOpen := false, initiallyOpen := false }

/-- The floor of the C2 scenario. -/
def c2Floor : WorldEntity := .wall { x := 0, y := 568, width := 800, height := 32 }

/-- The idle input snapshot. -/
def idleInput : InputSnapshot :=
  { left := false, right := false, up := false, down := false, action := false }

/-- The pressed-right input of the C2 scenario. -/
def c2Input : InputSnapshot :=
  { left := false, right := true, up := false, down := false, action := false }

/-- The mid-loop game state of the C2 scenario at local tick 5. -/
def c2State : GameState :=
  { localTick := 5, globalTick := 5, loopIndex := 1
    player := c2Player, ghosts := []
    entities := [c2Floor, .switchE c2Switch, .door c2Door]
    currentRecording :=
      { id := "loop-1", loopIndex := 1, inputs := List.replicate 5 idleInput
        reachedGoal := false, endTick := 0 }
    recordings := [], levelComplete := false
    spawnX := 50, spawnY := 500, levelDefs := [] }

/-- The player of the C2 scenario after the movement phase of tick 5:
moved right onto the switch and grounded on the floor. -/
def c2PlayerAfter : Body :=
  { x := 70, y := 536, vx := 5, vy := 0, width := 32, height := 32
    grounded := true, facingRight := true, isActive := true }

/-- Witness for the amended C2: the post-movement player overlaps the
switch, and the world update of the same tick opens the linked door. -/
theorem door_opens_in_same_tick_witness :
    (updateWorldEntities c2PlayerAfter [] [c2Floor, .switchE c2Switch, .door c2Door])[2]? =
      some (WorldEntity.door { c2Door with isOpen := true }) :=
  door_opens_in_same_tick c2PlayerAfter [] [c2Floor, .switchE c2Switch, .door c2Door]
    c2Switch c2Door 2 rfl
    (by norm_num [aabbOverlap, Body.rect, switchRect, c2PlayerAfter, c2Switch])
    (by simp)
    (by rfl)
    (by rfl)

/-- C2 counterexample: at tick 5 the player first comes to overlap the
switch (it did not overlap before the tick), the door was closed, and at
the end of that very tick the door's isOpen flag is already true; the
claimed one-tick latency of the flag does not hold on the code. -/
theorem switch_press_opens_door_same_tick_counterexample :
    aabbOverlap c2Player.rect (switchRect c2Switch) = false ∧
    c2Door.isOpen = false ∧
    (simulationTick c2Input c2State).localTick = 6 ∧
    (simulationTick c2Input c2State).entities =
      [c2Floor, .switchE { c2Switch with isPressed := true },
        .door { c2Door with isOpen := true }] := by
  have hplayer : tickPlayer c2State c2Input = c2PlayerAfter := by
    norm_num [tickPlayer, updateBody, applyInput, applyPhysics, resolveCollisions,
      List.foldl, resolveOne, solidRect, aabbOverlap, Body.rect, getOverlapX,
      getOverlapY, clampToBounds, abs_eq_max_neg, max_def, c2State, c2Player,
      c2Floor, c2Switch, c2Door, c2Input, c2PlayerAfter, PLAYER_SPEED, GRAVITY,
      CANVAS_WIDTH, CANVAS_HEIGHT]
  have hghosts : tickGhosts c2State = [] := rfl
  have hents : tickEntities c2State c2Input =
      [c2Floor, .switchE { c2Switch with isPressed := true },
        .door { c2Door with isOpen := true }] := by
    unfold tickEntities
    rw [hplayer, hghosts]
    norm_num [updateWorldEntities, updateSwitch, updateDoor, updateLaser,
      linkedSwitches, List.filterMap, aabbOverlap, Body.rect, switchRect, c2State,
      c2PlayerAfter, c2Switch, c2Door, c2Floor]
  have hwin : checkWinCondition (tickPlayer c2State c2Input)
      (tickEntities c2State c2Input) = false := by
    rw [hplayer, hents]
    rfl
  have hstep := simulationTick_no_end c2Input c2State hwin
    (by norm_num [c2State, LOOP_TICKS])
  refine ⟨?_, rfl, ?_, ?_⟩
  · norm_num [aabbOverlap, Body.rect, switchRect, c2Player, c2Switch]
  · rw [hstep]
    rfl
  · rw [hstep]
    exact hents

/-- The level-3 style descriptors: two switches linking to one door whose
descriptor carries the given requiresBoth flag. -/
def c3Defs (requiresBoth : Bool) : List EntityDef :=
  [ .wall 0 568 800 32
  , .wall 50 400 120 20
  , .switchD 80 380 (some 0)
  , .wall 300 350 120 20
  , .switchD 330 330 (some 0)
  , .wall 550 350 20 218
  , .door 550 504 (some 64) 0 requiresBoth
  , .goal 700 520 (some 48) (some 48) ]

/-- The first switch of the level-3 scenario, pressed, linked to door 2. -/
def c3SwitchPressed : SwitchE :=
  { id := 0, x := 80, y := 380, width := 40, height := 20
    isPressed := true, linkedIds := [2] }

/-- The second switch of the level-3 scenario, not pressed, linked to
door 2. -/
def c3SwitchIdle : SwitchE :=
  { id := 1, x := 330, y := 330, width := 40, height := 20
    isPressed := false, linkedIds := [2] }

/-- The door of the level-3 scenario as createEntities builds it. -/
def c3Door : DoorE :=
  { id := 2, x := 550, y := 504, width := 16, height := 64
    isOpen := false, initiallyOpen := false }

/-- C3: the requiresBoth flag of the level data is read by no code:
construction yields identical entities with the flag on or off, and the
door update opens the level-3 door although only one of its two linked
switches is pressed, where the claimed AND semantics would keep it
closed. -/
theorem requiresBoth_ignored_door_opens_with_one_switch :
    createEntities (c3Defs true) = createEntities (c3Defs false) ∧
    WorldEntity.door c3Door ∈ createEntities (c3Defs true) ∧
    WorldEntity.switchE { c3SwitchPressed with isPressed := false } ∈
      createEntities (c3Defs true) ∧
    WorldEntity.switchE c3SwitchIdle ∈ createEntities (c3Defs true) ∧
    c3SwitchIdle.isPressed = false ∧
    (updateDoor c3Door
      [.switchE c3SwitchPressed, .switchE c3SwitchIdle, .door c3Door]).isOpen = true := by
  refine ⟨rfl, ?_, ?_, ?_, rfl, ?_⟩
  · norm_num [createEntities, c3Defs, pass1Step, createSwitch, createDoor,
      createWall, createGoal, orDefault, resolveLink, SWITCH_SIZE, DOOR_WIDTH,
      DOOR_HEIGHT, c3Door, List.lookup]
  · norm_num [createEntities, c3Defs, pass1Step, createSwitch, createDoor,
      createWall, createGoal, orDefault, resolveLink, SWITCH_SIZE, DOOR_WIDTH,
      DOOR_HEIGHT, c3SwitchPressed, List.lookup]
  · norm_num [createEntities, c3Defs, pass1Step, createSwitch, createDoor,
      createWall, createGoal, orDefault, resolveLink, SWITCH_SIZE, DOOR_WIDTH,
      DOOR_HEIGHT, c3SwitchIdle, List.lookup]
  · norm_num [updateDoor, linkedSwitches, List.filterMap, c3Door,
      c3SwitchPressed, c3SwitchIdle]

/-- C4: a win detected on the final tick of the loop ends the attempt
twice: checkWinCondition calls endLoop with reachedGoal true, the tick
counter then reaches LOOP_TICKS and the loop-boundary check calls endLoop
again with reachedGoal false, so the recordings list grows by two entries,
the loop index is incremented, and the recording is re-finalized with
reachedGoal false, while the session still shows the level complete. -/
theorem final_tick_win_double_end (st : GameState) (input : InputSnapshot)
    (hT : st.localTick = LOOP_TICKS - 1)
    (hwin : checkWinCondition (tickPlayer st input) (tickEntities st input) = true) :
    (simulationTick input st).recordings.length = st.recordings.length + 2 ∧
    (simulationTick input st).loopIndex = st.loopIndex + 1 ∧
    (simulationTick input st).levelComplete = true ∧
    ((simulationTick input st).recordings.getLast?).map Recording.reachedGoal =
      some false := by
  have hT2 : st.localTick + 1 = LOOP_TICKS := by
    rw [hT]
    decide
  simp only [simulationTick]
  rw [hwin]
  simp only [reduceIte, endLoop, reduceCtorEq]
  rw [if_pos (le_of_eq hT2.symm)]
  simp only [startNewLoop, List.length_append, List.length_singleton,
    List.getLast?_concat, Option.map_some']
  trivial

/-- The goal of the C4 scenario. -/
def c4Goal : WorldEntity := .goal (createGoal 700 520 48 48)

/-- The player of the C4 scenario, standing on the floor inside the goal on
the final tick. -/
def c4Player : Body :=
  { x := 700, y := 536, vx := 0, vy := 0, width := 32, height := 32
    grounded := true, facingRight := true, isActive := true }

/-- The C4 scenario: the state at the start of the final loop tick
(localTick LOOP_TICKS minus 1), with a dense recording of all previous
ticks. -/
def c4State : GameState :=
  { localTick := LOOP_TICKS - 1, globalTick := LOOP_TICKS - 1, loopIndex := 1
    player := c4Player, ghosts := []
    entities := [c2Floor, c4Goal]
    currentRecording :=
      { id := "loop-1", loopIndex := 1
        inputs := List.replicate (LOOP_TICKS - 1) idleInput
        reachedGoal := false, endTick := 0 }
    recordings := [], levelComplete := false
    spawnX := 50, spawnY := 500, levelDefs := [] }

/-- Witness for C4: on the concrete final-tick win the recordings list
grows by two, the loop index advances, and the last stored entry carries
reachedGoal false. -/
theorem final_tick_win_double_end_witness :
    (simulationTick idleInput c4State).recordings.length =
      c4State.recordings.length + 2 ∧
    (simulationTick idleInput c4State).loopIndex = c4State.loopIndex + 1 ∧
    (simulationTick idleInput c4State).levelComplete = true ∧
    ((simulationTick idleInput c4State).recordings.getLast?).map Recording.reachedGoal =
      some false :=
  final_tick_win_double_end c4State idleInput rfl
    (by
      have hp : tickPlayer c4State idleInput = c4Player := by
        norm_num [tickPlayer, c4State, updateBody, applyInput, applyPhysics,
          resolveCollisions, List.foldl, resolveOne, solidRect, aabbOverlap,
          Body.rect, getOverlapX, getOverlapY, clampToBounds, abs_eq_max_neg,
          max_def, c4Player, c2Floor, c4Goal, createGoal, idleInput, GRAVITY,
          CANVAS_WIDTH, CANVAS_HEIGHT]
      have hents : tickEntities c4State idleInput = [c2Floor, c4Goal] := rfl
      rw [hp, hents]
      norm_num [checkWinCondition, List.find?, isGoalEntity, aabbOverlap,
        Body.rect, goalRect, c4Player, c4Goal, createGoal, c2Floor])

end TimeLoop
